import Mathlib

/-!
# Fee engine of TeachNicheV0: verification of the specification's claims

This file embeds the fee-splitting and purchase-settlement calculation logic of the
repository (the functions in the Stripe helper module — calculateFees and
calculatePriceWithStripeFees — together with the call sites in the checkout-lesson and
verify-lesson-purchase API routes) and settles the specification's claims about it.

Modelling conventions:

* Monetary amounts are integer numbers of cents, modelled by ℤ.
* JS Number arithmetic on these inputs is modelled by exact arithmetic.  Every
  expression the source passes to Math.round is an exact fraction n / d of integers,
  and Math.round rounds half toward positive infinity, so Math.round (n / d) is the
  integer ⌊n/d + 1/2⌋ = ⌊(2n + d) / (2d)⌋, computed here with Int.fdiv (floor
  division, correct for either sign of d).
* The source computes platformProportion = basePlatformFee / basePrice with no guard;
  when basePrice = 0 this is the IEEE division 0 / 0 = NaN, which propagates to both
  returned fields.  A NaN result carries no numeric value, so calculateFees is
  embedded with result type Option: none models the NaN outcome, some models an
  ordinary numeric result.
-/

namespace TeachNiche

/-- JS Math.round applied to the exact rational n / d: rounds half toward positive
infinity, that is ⌊n/d + 1/2⌋ = ⌊(2n + d)/(2d)⌋, computed by integer floor division.
For d = 0 the value is irrelevant (Int.fdiv returns 0); callers guard that case. -/
def mathRound (n d : ℤ) : ℤ := (2 * n + d).fdiv (2 * d)

/-- Source: PLATFORM_FEE_PERCENTAGE = parseInt(getEnv('STRIPE_APPLICATION_FEE_PERCENT',
'15'), 10).  Modelled at its default value 15, as the spec's configuration surface
records (platformFeePercent, default 15). -/
def PLATFORM_FEE_PERCENTAGE : ℤ := 15

/-- Source: INSTRUCTOR_PERCENTAGE = 100 - PLATFORM_FEE_PERCENTAGE. -/
def INSTRUCTOR_PERCENTAGE : ℤ := 100 - PLATFORM_FEE_PERCENTAGE

/-- Source: STRIPE_FIXED_FEE_CENTS = 30.  (STRIPE_PERCENTAGE_FEE = 2.9 is folded into
each formula below as the exact fraction 29/10.) -/
def STRIPE_FIXED_FEE_CENTS : ℤ := 30

/-- Source (calculateFees): stripeFeePercentage = Math.round((amount * 2.9) / 100).
Exactly, (amount * 29/10) / 100 = (29 * amount) / 1000. -/
def stripeFeePercentage (amount : ℤ) : ℤ := mathRound (29 * amount) 1000

/-- Source (calculateFees): totalStripeFee = stripeFeePercentage + STRIPE_FIXED_FEE_CENTS. -/
def totalStripeFee (amount : ℤ) : ℤ := stripeFeePercentage amount + STRIPE_FIXED_FEE_CENTS

/-- Source (calculateFees): basePrice = Math.round(amount / (1 + 2.9/100) - 30).
Exactly, amount / (1029/1000) - 30 = (1000 * amount - 30 * 1029) / 1029. -/
def basePrice (amount : ℤ) : ℤ := mathRound (1000 * amount - 30 * 1029) 1029

/-- Source (calculateFees): basePlatformFee =
Math.round((basePrice * PLATFORM_FEE_PERCENTAGE) / 100). -/
def basePlatformFee (amount : ℤ) : ℤ :=
  mathRound (basePrice amount * PLATFORM_FEE_PERCENTAGE) 100

/-- Source (calculateFees): platformShareOfStripeFee =
Math.round(totalStripeFee * platformProportion), with platformProportion =
basePlatformFee / basePrice.  Exactly, totalStripeFee * (basePlatformFee / basePrice)
= (totalStripeFee * basePlatformFee) / basePrice.  Meaningful only when
basePrice ≠ 0; calculateFees guards that case. -/
def platformShareOfStripeFee (amount : ℤ) : ℤ :=
  mathRound (totalStripeFee amount * basePlatformFee amount) (basePrice amount)

/-- Source (calculateFees): platformFeeWithStripeCosts =
basePlatformFee + platformShareOfStripeFee. -/
def platformFeeWithStripeCosts (amount : ℤ) : ℤ :=
  basePlatformFee amount + platformShareOfStripeFee amount

/-- The pair returned by calculateFees: { platformFee, instructorAmount }. -/
structure FeeSplit where
  platformFee : ℤ
  instructorAmount : ℤ
deriving DecidableEq

/-- Source: calculateFees(amount).  Returns platformFee = platformFeeWithStripeCosts and
instructorAmount = amount - platformFeeWithStripeCosts.  When basePrice amount = 0 the
source divides 0 by 0 (platformProportion = NaN) and both returned fields are NaN;
that outcome is modelled as none. -/
def calculateFees (amount : ℤ) : Option FeeSplit :=
  if basePrice amount = 0 then none
  else some ⟨platformFeeWithStripeCosts amount, amount - platformFeeWithStripeCosts amount⟩

/-- Source: calculatePriceWithStripeFees(basePrice) =
Math.round((basePrice + STRIPE_FIXED_FEE_CENTS) / (1 - 2.9 / 100)).
Exactly, (basePrice + 30) / (971/1000) = 1000 * (basePrice + 30) / 971. -/
def calculatePriceWithStripeFees (basePrice : ℤ) : ℤ :=
  mathRound (1000 * (basePrice + STRIPE_FIXED_FEE_CENTS)) 971

/-- Source (checkout-lesson route): priceWithFees = calculatePriceWithStripeFees(price *
100) / 100; priceWithFeesInCents = Math.round(priceWithFees * 100); this is the
unit_amount of the line item sent to the payment gateway.  Exactly,
(calculatePriceWithStripeFees p / 100) * 100 = (100 * calculatePriceWithStripeFees p) / 100. -/
def checkoutPriceWithFeesInCents (priceInCents : ℤ) : ℤ :=
  mathRound (100 * calculatePriceWithStripeFees priceInCents) 100

/-- Source (checkout-lesson route): application_fee_amount = platformFee where
{ platformFee } = calculateFees(priceInCents) — the split of the PRE-FEE base price,
not of the fee-inclusive amount the customer is charged. -/
def checkoutApplicationFeeAmount (priceInCents : ℤ) : Option ℤ :=
  (calculateFees priceInCents).map FeeSplit.platformFee

/-- Source (verify-lesson-purchase route): amountInCents = checkoutSession.amount_total
(the fee-inclusive total of the session's single line item, quantity 1), and the split
is recomputed as calculateFees(amountInCents). -/
def verifyLessonPurchaseSplit (priceInCents : ℤ) : Option FeeSplit :=
  calculateFees (checkoutPriceWithFeesInCents priceInCents)

/-- Claim C6 names an "independently rounded analytic value" of the counterparty
(instructor) share.  This definition follows the claim's words: it mirrors the code's
platform-share computation with the instructor's percentage — the instructor's share
of the implied base price, rounded, plus the instructor's proportionally rounded share
of the processor fee.  It is a spec-side reference value, not code of the repository. -/
def instructorBaseAmount (amount : ℤ) : ℤ :=
  mathRound (basePrice amount * INSTRUCTOR_PERCENTAGE) 100

/-- Second half of the spec-side mirror construction for claim C6: the instructor's
proportional share of the total processor fee, independently rounded. -/
def instructorShareOfStripeFee (amount : ℤ) : ℤ :=
  mathRound (totalStripeFee amount * instructorBaseAmount amount) (basePrice amount)

/-- The counterparty share's "independently rounded analytic value" named by claim C6:
the mirror image of platformFeeWithStripeCosts built from the instructor percentage. -/
def specCounterpartyRoundedShare (amount : ℤ) : ℤ :=
  instructorBaseAmount amount + instructorShareOfStripeFee amount

/-! ## Helper lemmas about mathRound -/

/-- Galois characterization of mathRound for a positive denominator:
z ≤ Math.round(n/d) exactly when z * 2d ≤ 2n + d. -/
theorem le_mathRound_iff (z n d : ℤ) (hd : 0 < d) :
    z ≤ mathRound n d ↔ z * (2 * d) ≤ 2 * n + d := by
  unfold mathRound
  rw [Int.fdiv_eq_ediv _ (by omega)]
  exact Int.le_ediv_iff_mul_le (by omega)

/-- Two-sided bounds pinning mathRound n d between the neighbouring multiples of 2d. -/
theorem mathRound_bounds (n d : ℤ) (hd : 0 < d) :
    mathRound n d * (2 * d) ≤ 2 * n + d ∧ 2 * n + d < (mathRound n d + 1) * (2 * d) := by
  constructor
  · exact (le_mathRound_iff _ _ _ hd).mp le_rfl
  · by_contra h
    push_neg at h
    have h2 := (le_mathRound_iff (mathRound n d + 1) n d hd).mpr h
    omega

/-- Uniqueness form of the bounds: mathRound n d equals q exactly when 2n + d lies in
the half-open window [q * 2d, (q+1) * 2d). -/
theorem mathRound_eq_iff (n d q : ℤ) (hd : 0 < d) :
    mathRound n d = q ↔ q * (2 * d) ≤ 2 * n + d ∧ 2 * n + d < (q + 1) * (2 * d) := by
  obtain ⟨h1, h2⟩ := mathRound_bounds n d hd
  constructor
  · rintro rfl
    exact ⟨h1, h2⟩
  · rintro ⟨h3, h4⟩
    have hq : q ≤ mathRound n d := (le_mathRound_iff _ _ _ hd).mpr h3
    have hM : mathRound n d ≤ q := by
      by_contra hM
      push_neg at hM
      have : (q + 1) * (2 * d) ≤ mathRound n d * (2 * d) :=
        mul_le_mul_of_nonneg_right (by omega) (by omega)
      omega
    omega

/-- The implied base price recovered by calculateFees vanishes exactly at amount 31:
31 is the unique integer amount whose implied pre-fee base price rounds to 0. -/
theorem basePrice_eq_zero_iff (amount : ℤ) : basePrice amount = 0 ↔ amount = 31 := by
  rw [basePrice, mathRound_eq_iff _ _ _ (by norm_num)]
  omega

/-- On any amount whose implied base price is nonzero, calculateFees returns the
platform share built from the independently rounded pieces and gives the instructor
the remainder. -/
theorem calculateFees_eq_some (amount : ℤ) (h : basePrice amount ≠ 0) :
    calculateFees amount =
      some ⟨platformFeeWithStripeCosts amount, amount - platformFeeWithStripeCosts amount⟩ := by
  rw [calculateFees, if_neg h]

/-! ## Claim C1 — conservation of the split -/

/-- Claim C1 as stated is false at the non-negative input 31: there calculateFees
produces no numeric shares at all (NaN from the 0/0 platformProportion), so no pair of
returned shares sums to 31. -/
theorem C1_conservation_counterexample :
    ¬ ∃ s, calculateFees 31 = some s ∧ s.platformFee + s.instructorAmount = 31 := by
  rintro ⟨s, hs, -⟩
  rw [show calculateFees 31 = none from by decide] at hs
  exact Option.noConfusion hs

/-- Claim C1, amended: for every non-negative integer charge amount other than 31 (the
unique amount whose implied base price is 0, where the code yields NaN), the two shares
returned by calculateFees sum exactly to the input. -/
theorem C1_conservation (c : ℤ) (h0 : 0 ≤ c) (h31 : c ≠ 31) :
    ∃ s, calculateFees c = some s ∧ s.platformFee + s.instructorAmount = c := by
  refine ⟨_, calculateFees_eq_some c (fun h => h31 ((basePrice_eq_zero_iff c).mp h)), ?_⟩
  show platformFeeWithStripeCosts c + (c - platformFeeWithStripeCosts c) = c
  omega

/-- Witness for C1_conservation at the spec's concrete fee-inclusive amount 1061. -/
theorem C1_conservation_witness :
    ∃ s, calculateFees 1061 = some s ∧ s.platformFee + s.instructorAmount = 1061 :=
  C1_conservation 1061 (by decide) (by decide)

/-! ## Claim C2 — totality and the zero-implied-base-price edge case -/

/-- Claim C2 names the edge case impliedBasePrice = 0 and requires a short-circuit to
platformShare = 0, counterpartyShare = 0 with no division by zero.  The code has no
such short-circuit: at amount 31 the implied base price is 0 (and the rounded platform
base fee is 0), so platformProportion is the division 0 / 0 = NaN and both returned
fields are NaN — modelled as none — instead of the required zero split. -/
theorem C2_zero_base_price_no_short_circuit :
    basePrice 31 = 0 ∧ basePlatformFee 31 = 0 ∧ calculateFees 31 = none := by
  decide

/-! ## Claim C3 — gateway-request consistency at the checkout call site -/

/-- Claim C3 evaluated at base price 1000 cents: the line-item amount sent to the
gateway does equal computeChargeAmount(1000) = 1061, but the application fee sent is
calculateFees applied to the PRE-FEE base price (150), not the platform share of the
fee-inclusive charge amount required by the spec (calculateFees(1061).platformFee =
159). -/
theorem C3_checkout_gateway_request_mismatch :
    checkoutPriceWithFeesInCents 1000 = calculatePriceWithStripeFees 1000 ∧
    calculatePriceWithStripeFees 1000 = 1061 ∧
    checkoutApplicationFeeAmount 1000 = some 150 ∧
    (calculateFees 1061).map FeeSplit.platformFee = some 159 := by
  decide

/-! ## Claim C4 — call-site equivalence between checkout and verification -/

/-- Claim C4 as stated is false at base price 1000: the checkout call site computes
calculateFees(1000) = { 150, 850 } while the verification path recomputes
calculateFees on the session's fee-inclusive total 1061, getting { 159, 902 }. -/
theorem C4_callsite_equivalence_counterexample :
    calculateFees 1000 = some ⟨150, 850⟩ ∧
    verifyLessonPurchaseSplit 1000 = some ⟨159, 902⟩ ∧
    (FeeSplit.mk 150 850) ≠ (FeeSplit.mk 159 902) := by
  decide

/-- Claim C4, amended: the verification path applies calculateFees to the fee-inclusive
charge amount calculatePriceWithStripeFees(b) while the checkout site applies it to the
pre-fee base price b, and the two splits are not equal in general — at b = 1000 they
differ. -/
theorem C4_callsites_not_equivalent :
    (∀ b : ℤ, verifyLessonPurchaseSplit b = calculateFees (calculatePriceWithStripeFees b)) ∧
    calculateFees 1000 ≠ verifyLessonPurchaseSplit 1000 := by
  constructor
  · intro b
    have h : checkoutPriceWithFeesInCents b = calculatePriceWithStripeFees b := by
      rw [checkoutPriceWithFeesInCents, mathRound_eq_iff _ _ _ (by norm_num)]
      omega
    rw [verifyLessonPurchaseSplit, h]
  · decide

/-! ## Claim C5 — the pinned zero-base-price scenario -/

/-- Claim C5 as stated is false: with the fixed configuration, the charge amount for a
zero base price is not 30. -/
theorem C5_zero_base_counterexample : calculatePriceWithStripeFees 0 ≠ 30 := by
  decide

/-- Claim C5, amended: computeChargeAmount(0) = round(30 / 0.971) = round(30.896) = 31;
the fixed fee is grossed up by the percent-fee division before rounding. -/
theorem C5_zero_base_charge : calculatePriceWithStripeFees 0 = 31 := by
  decide

/-! ## Claim C6 — which share absorbs the rounding residue -/

/-- Claim C6 as stated is false at input 1061: the code's counterparty (instructor)
share 902 does not equal its independently rounded analytic value 903, and the code's
platform share 159 is not the input minus that analytic counterparty value. -/
theorem C6_absorption_counterexample :
    calculateFees 1061 = some ⟨159, 902⟩ ∧
    specCounterpartyRoundedShare 1061 = 903 ∧
    ¬ ((902 : ℤ) = specCounterpartyRoundedShare 1061 ∧
       (159 : ℤ) = 1061 - specCounterpartyRoundedShare 1061) := by
  decide

/-- Claim C6, amended: the rounding residue is absorbed into the counterparty (the
instructor), not the platform — by construction the platform share equals its
independently rounded analytic value platformFeeWithStripeCosts, the instructor share
is defined as the input minus the platform share, and the two shares sum exactly to the
input, so no residue is dropped or duplicated. -/
theorem C6_residue_absorbed_by_instructor (c : ℤ) (s : FeeSplit)
    (h : calculateFees c = some s) :
    s.platformFee = platformFeeWithStripeCosts c ∧
    s.instructorAmount = c - platformFeeWithStripeCosts c ∧
    s.platformFee + s.instructorAmount = c := by
  rw [calculateFees] at h
  split at h
  · exact Option.noConfusion h
  · cases Option.some.inj h
    refine ⟨rfl, rfl, ?_⟩
    show platformFeeWithStripeCosts c + (c - platformFeeWithStripeCosts c) = c
    omega

/-- Witness for C6_residue_absorbed_by_instructor at input 1061. -/
theorem C6_residue_witness :
    (FeeSplit.mk 159 902).platformFee = platformFeeWithStripeCosts 1061 ∧
    (FeeSplit.mk 159 902).instructorAmount = 1061 - platformFeeWithStripeCosts 1061 ∧
    (FeeSplit.mk 159 902).platformFee + (FeeSplit.mk 159 902).instructorAmount = 1061 :=
  C6_residue_absorbed_by_instructor 1061 ⟨159, 902⟩ (by decide)

/-! ## Claim C7 — error signalling -/

/-- Claim C7 as stated is false: the engine performs no input validation at all.  At
the negative input -100 calculateFees signals nothing and returns ordinary (negative)
numbers, and at the non-negative integer input 31 it fails to return a numeric result
(NaN) even though the claim promises no error there. -/
theorem C7_invalid_amount_counterexample :
    calculateFees (-100) = some ⟨-15, -85⟩ ∧ (calculateFees 31).isSome = false := by
  decide

/-- Claim C7, amended: no InvalidAmount error class exists and neither sign nor
integrality of the input is checked; calculateFees produces a numeric result for every
integer input — negative ones included — except exactly the amount 31, where the 0/0
platform proportion yields NaN (calculatePriceWithStripeFees is total by its type). -/
theorem C7_defined_iff_not_31 (a : ℤ) : (calculateFees a).isSome ↔ a ≠ 31 := by
  constructor
  · intro h ha
    subst ha
    rw [calculateFees, if_pos ((basePrice_eq_zero_iff 31).mpr rfl)] at h
    simp at h
  · intro h
    rw [calculateFees, if_neg (fun h0 => h ((basePrice_eq_zero_iff a).mp h0))]
    rfl

/-! ## Claim C8 — non-negativity of both shares -/

/-- Core bound behind claim C8: for every non-negative amount the platform share
(basePlatformFee plus platformShareOfStripeFee) lies between 0 and the amount.  Small
amounts (below 50 cents) are checked exhaustively; for larger amounts the rounding
windows of each intermediate quantity pin the share below the amount. -/
theorem platformFee_bounds (c : ℤ) (h0 : 0 ≤ c) :
    0 ≤ platformFeeWithStripeCosts c ∧ platformFeeWithStripeCosts c ≤ c := by
  rcases lt_or_le c 50 with hc | hc
  · interval_cases c <;> decide
  · have hb : basePrice c * (2 * 1029) ≤ 2 * (1000 * c - 30 * 1029) + 1029 ∧
        2 * (1000 * c - 30 * 1029) + 1029 < (basePrice c + 1) * (2 * 1029) :=
      mathRound_bounds _ _ (by norm_num)
    have hbU : 2058 * basePrice c ≤ 2000 * c - 60711 := by linarith [hb.1]
    have hbL : 2000 * c - 60711 < 2058 * basePrice c + 2058 := by linarith [hb.2]
    have hb19 : 19 ≤ basePrice c := by omega
    have hf : stripeFeePercentage c * (2 * 1000) ≤ 2 * (29 * c) + 1000 ∧
        2 * (29 * c) + 1000 < (stripeFeePercentage c + 1) * (2 * 1000) :=
      mathRound_bounds _ _ (by norm_num)
    have hfU : 2000 * stripeFeePercentage c ≤ 58 * c + 1000 := by linarith [hf.1]
    have hfL : 58 * c + 1000 < 2000 * stripeFeePercentage c + 2000 := by linarith [hf.2]
    have hFdef : totalStripeFee c = stripeFeePercentage c + 30 := rfl
    have hF31 : 31 ≤ totalStripeFee c := by omega
    have hFU : 2000 * totalStripeFee c ≤ 58 * c + 61000 := by omega
    have hp : basePlatformFee c * (2 * 100) ≤ 2 * (basePrice c * 15) + 100 ∧
        2 * (basePrice c * 15) + 100 < (basePlatformFee c + 1) * (2 * 100) :=
      mathRound_bounds _ _ (by norm_num)
    have hpU : 200 * basePlatformFee c ≤ 30 * basePrice c + 100 := by linarith [hp.1]
    have hpL : 30 * basePrice c + 100 < 200 * basePlatformFee c + 200 := by linarith [hp.2]
    have hp3 : 3 ≤ basePlatformFee c := by omega
    have hbpos : (0 : ℤ) < basePrice c := by omega
    have hs : platformShareOfStripeFee c * (2 * basePrice c) ≤
          2 * (totalStripeFee c * basePlatformFee c) + basePrice c ∧
        2 * (totalStripeFee c * basePlatformFee c) + basePrice c <
          (platformShareOfStripeFee c + 1) * (2 * basePrice c) :=
      mathRound_bounds _ _ hbpos
    have hs0 : 0 ≤ platformShareOfStripeFee c := by
      by_contra hneg
      push_neg at hneg
      have h1 : (platformShareOfStripeFee c + 1) * (2 * basePrice c) ≤ 0 :=
        mul_nonpos_iff.mpr (Or.inr ⟨by omega, by omega⟩)
      have h2 : 0 < totalStripeFee c * basePlatformFee c :=
        mul_pos (by omega) (by omega)
      linarith [hs.2]
    have hpfc : platformFeeWithStripeCosts c =
        basePlatformFee c + platformShareOfStripeFee c := rfl
    refine ⟨by omega, ?_⟩
    have hprod : 200 * basePlatformFee c * (basePrice c + totalStripeFee c) ≤
        (30 * basePrice c + 100) * (basePrice c + totalStripeFee c) :=
      mul_le_mul_of_nonneg_right hpU (by omega)
    have hbb : 2058 * basePrice c * basePrice c ≤ (2000 * c - 60711) * basePrice c :=
      mul_le_mul_of_nonneg_right hbU (by omega)
    have hFb : 2000 * totalStripeFee c * basePrice c ≤
        (58 * c + 61000) * basePrice c :=
      mul_le_mul_of_nonneg_right hFU (by omega)
    have hbc : 950 ≤ basePrice c * c := by
      nlinarith [mul_nonneg (show (0:ℤ) ≤ basePrice c - 19 by omega)
        (show (0:ℤ) ≤ c - 50 by omega)]
    have key : (basePlatformFee c + platformShareOfStripeFee c) * (2 * basePrice c) ≤
        c * (2 * basePrice c) := by
      nlinarith [hs.1, hprod, hbb, hFb, hbc, hFU, hb19, hc, hp3, hs0, hbpos,
        mul_nonneg (show (0:ℤ) ≤ basePrice c - 19 by omega)
          (show (0:ℤ) ≤ c - 50 by omega)]
    have := le_of_mul_le_mul_right key (by omega : (0 : ℤ) < 2 * basePrice c)
    omega

/-- Claim C8 as stated is false at the non-negative input 31: calculateFees returns no
numeric shares there (NaN), so in particular no pair of non-negative shares is
returned. -/
theorem C8_nonneg_counterexample :
    ¬ ∃ s, calculateFees 31 = some s ∧ 0 ≤ s.platformFee ∧ 0 ≤ s.instructorAmount := by
  rintro ⟨s, hs, -⟩
  rw [show calculateFees 31 = none from by decide] at hs
  exact Option.noConfusion hs

/-- Claim C8, amended: for every non-negative integer amount other than 31 (the NaN
input), calculateFees returns shares and both of them — platformFee and
instructorAmount — are non-negative. -/
theorem C8_shares_nonneg (c : ℤ) (h0 : 0 ≤ c) (h31 : c ≠ 31) :
    ∃ s, calculateFees c = some s ∧ 0 ≤ s.platformFee ∧ 0 ≤ s.instructorAmount := by
  refine ⟨_, calculateFees_eq_some c (fun h => h31 ((basePrice_eq_zero_iff c).mp h)),
    ?_, ?_⟩
  · exact (platformFee_bounds c h0).1
  · show 0 ≤ c - platformFeeWithStripeCosts c
    have := (platformFee_bounds c h0).2
    omega

/-- Witness for C8_shares_nonneg at the spec's concrete fee-inclusive amount 1061. -/
theorem C8_shares_nonneg_witness :
    ∃ s, calculateFees 1061 = some s ∧ 0 ≤ s.platformFee ∧ 0 ≤ s.instructorAmount :=
  C8_shares_nonneg 1061 (by decide) (by decide)

/-! ## Claim C9 — monotonicity of the charge amount -/

/-- Claim C9: calculatePriceWithStripeFees is non-decreasing on non-negative integer
base prices. -/
theorem C9_charge_monotone (a b : ℤ) (h0 : 0 ≤ a) (hab : a ≤ b) :
    calculatePriceWithStripeFees a ≤ calculatePriceWithStripeFees b := by
  have h1 : calculatePriceWithStripeFees a * (2 * 971) ≤ 2 * (1000 * (a + 30)) + 971 :=
    (mathRound_bounds (1000 * (a + 30)) 971 (by norm_num)).1
  refine (le_mathRound_iff (calculatePriceWithStripeFees a) (1000 * (b + 30)) 971
    (by norm_num)).mpr ?_
  linarith

/-- Witness for C9_charge_monotone at the pair (0, 1000). -/
theorem C9_charge_monotone_witness :
    calculatePriceWithStripeFees 0 ≤ calculatePriceWithStripeFees 1000 :=
  C9_charge_monotone 0 1000 (by decide) (by decide)

/-! ## Claim C10 — implicit lower bound on the customer charge -/

/-- Claim C10: the customer charge is at least the base price plus the fixed processor
fee of 30 cents, and in particular the charge for a zero base price is strictly
positive. -/
theorem C10_charge_lower_bound :
    (∀ b : ℤ, 0 ≤ b →
      b + STRIPE_FIXED_FEE_CENTS ≤ calculatePriceWithStripeFees b) ∧
    0 < calculatePriceWithStripeFees 0 := by
  constructor
  · intro b hb
    show b + 30 ≤ calculatePriceWithStripeFees b
    refine (le_mathRound_iff (b + 30) (1000 * (b + 30)) 971 (by norm_num)).mpr ?_
    linarith
  · decide

/-- Witness for C10_charge_lower_bound at base price 0. -/
theorem C10_charge_lower_bound_witness :
    (0 : ℤ) + STRIPE_FIXED_FEE_CENTS ≤ calculatePriceWithStripeFees 0 :=
  C10_charge_lower_bound.1 0 (by decide)

end TeachNiche
